import Mathlib

/-!
Verification of the SafeScan monitoring HTTP service (src/app.py).

The Python handlers are shallowly embedded as pure Lean functions.
Effects are made explicit parameters:
* the outcome of an OS query (psutil call) is an `Except String` value;
* the outcome of an outbound HTTP check is a `CheckOutcome`;
* the log file is a `Bool` existence flag plus an `Except String (List String)`
  read result whose `.ok` payload is the list returned by `readlines()`
  (each element a raw line, trailing newline included);
* the current UTC timestamp is a `String` parameter `now`;
* records written through the app logger are returned explicitly as a
  `List LogRecord`.
Python floats (percentages, elapsed seconds) are modelled as rationals.
-/

namespace SafeScan

/-- Severity of a record written through the app logger. -/
inductive LogLevel where
  | info : LogLevel
  | error : LogLevel
deriving DecidableEq, Repr

/-- A record written through `app.logger`. -/
structure LogRecord where
  level : LogLevel
  msg : String
deriving DecidableEq, Repr

/-- Python `str.strip()`: remove leading and trailing whitespace. -/
def pyStrip (s : String) : String :=
  ⟨((s.data.dropWhile Char.isWhitespace).reverse.dropWhile Char.isWhitespace).reverse⟩

/-- Python list slice `l[k:]` for an arbitrary integer `k`:
a nonnegative start drops the first `k` elements; a negative start keeps
the last `min (-k) l.length` elements. -/
def pySliceFrom (l : List String) (k : Int) : List String :=
  if 0 ≤ k then l.drop k.toNat else l.drop (l.length - (-k).toNat)

/-- Response body shapes of the `/logs` handler in `get_logs` (src/app.py):
the missing-file body `{'logs': []}`, the success body
`{'logs': ..., 'total_lines': ..., 'returned_lines': ...}`, and the
read-failure body `{'error': ...}`. -/
inductive LogsBody where
  | emptyLogs : LogsBody
  | tail (logs : List String) (total_lines returned_lines : Nat) : LogsBody
  | err (msg : String) : LogsBody
deriving DecidableEq, Repr

/-- The `/logs` handler `get_logs` of src/app.py.  `fileExists` is
`os.path.exists(log_file)`, `readResult` the outcome of
`open(...).readlines()`, `lines` the parsed query parameter.  Returns the
body, the HTTP status, and the records written to the app logger. -/
def get_logs (fileExists : Bool) (readResult : Except String (List String))
    (lines : Int) : LogsBody × Nat × List LogRecord :=
  if fileExists = false then (LogsBody.emptyLogs, 200, [])
  else
    match readResult with
    | Except.error e =>
        (LogsBody.err e, 500, [⟨LogLevel.error, "Error reading logs: " ++ e⟩])
    | Except.ok logs =>
        let recent_logs := if lines < (logs.length : Int) then pySliceFrom logs (-lines) else logs
        (LogsBody.tail (recent_logs.map pyStrip) logs.length recent_logs.length, 200, [])

/-- The last `k` elements of a list. -/
def lastN (l : List String) (k : Nat) : List String :=
  l.drop (l.length - k)

/-- The shared default URL used by `SERVICES` in src/app.py for each of the
three environment lookups. -/
def placeholder_url : String := "http://safescan_apis:5000/api/health"

/-- `os.getenv(key, default)`: the environment is a partial map from
variable names to values. -/
def getenv (env : String → Option String) (key dflt : String) : String :=
  (env key).getD dflt

/-- The module-level `SERVICES` map of src/app.py, built once at startup
from the environment (Python dicts preserve insertion order, so the map is
an association list in source order). -/
def SERVICES (env : String → Option String) : List (String × String) :=
  [("api", getenv env "API_URL" placeholder_url),
   ("database", getenv env "DB_URL" placeholder_url),
   ("redis", getenv env "REDIS_URL" placeholder_url)]

/-- Outcome of the `requests.get(service_url, timeout=5)` call for one
endpoint: either a response with a status code and elapsed seconds, or a
raised `requests.exceptions.RequestException` with message `msg`. -/
inductive CheckOutcome where
  | ok (status_code : Nat) (elapsed : ℚ) : CheckOutcome
  | exn (msg : String) : CheckOutcome
deriving DecidableEq, Repr

/-- The per-endpoint result dict built by `check_services` in src/app.py.
A field absent from the Python dict is `none`. -/
structure ServiceResult where
  status : String
  status_code : Option Nat
  response_time : Option ℚ
  error : Option String
deriving DecidableEq, Repr

/-- The body of one loop iteration of `check_services` (src/app.py,
lines 78-91): the try branch on a response, the except branch on a
`RequestException`. -/
def checkService : CheckOutcome → ServiceResult
  | CheckOutcome.ok code t =>
      { status := if code == 200 then "healthy" else "unhealthy",
        status_code := some code, response_time := some t, error := none }
  | CheckOutcome.exn e =>
      { status := "unhealthy", status_code := none, response_time := none,
        error := some e }

/-- Response body of the `/services` handler. -/
structure ServicesBody where
  overall_status : String
  services : List (String × ServiceResult)
  timestamp : String
deriving DecidableEq, Repr

/-- The `/services` handler `check_services` of src/app.py.  `outcome`
gives, per service name and url, the result of the outbound GET. -/
def check_services (services : List (String × String))
    (outcome : String → String → CheckOutcome) (now : String) :
    ServicesBody × Nat :=
  let results := services.map (fun p => (p.1, checkService (outcome p.1 p.2)))
  let all_healthy := results.all (fun r => r.2.status == "healthy")
  ({ overall_status := if all_healthy then "healthy" else "degraded",
     services := results, timestamp := now },
   if all_healthy then 200 else 503)

/-- `true` iff the outbound check returned an HTTP 200 response. -/
def isOk200 : CheckOutcome → Bool
  | CheckOutcome.ok code _ => code == 200
  | CheckOutcome.exn _ => false

/-- An alert dict built by `get_alerts` in src/app.py. -/
structure Alert where
  level : String
  type : String
  message : String
  timestamp : String
deriving DecidableEq, Repr

/-- The alert list built by the three threshold checks of `get_alerts`
(src/app.py, lines 130-158), in source order: cpu, then memory, then
disk. -/
def alertsList (cpu_percent memory_percent disk_percent : ℚ) (now : String) :
    List Alert :=
  (if cpu_percent > 80 then
      [{ level := "warning", type := "cpu",
         message := "High CPU usage: " ++ toString cpu_percent ++ "%",
         timestamp := now }]
    else [])
  ++ (if memory_percent > 85 then
      [{ level := "warning", type := "memory",
         message := "High memory usage: " ++ toString memory_percent ++ "%",
         timestamp := now }]
    else [])
  ++ (if disk_percent > 90 then
      [{ level := "critical", type := "disk",
         message := "Low disk space: " ++ toString disk_percent ++ "% used",
         timestamp := now }]
    else [])

/-- Response body shapes of the `/alerts` handler. -/
inductive AlertsBody where
  | ok (alerts : List Alert) (count : Nat) (timestamp : String) : AlertsBody
  | err (msg : String) : AlertsBody
deriving DecidableEq, Repr

/-- The `/alerts` handler `get_alerts` of src/app.py.  The three psutil
queries run sequentially inside one try block, so the first failure wins;
`cpuS`, `memS`, `diskS` are their outcomes in source order. -/
def get_alerts (cpuS memS diskS : Except String ℚ) (now : String) :
    AlertsBody × Nat × List LogRecord :=
  match cpuS with
  | Except.error e =>
      (AlertsBody.err e, 500, [⟨LogLevel.error, "Error getting alerts: " ++ e⟩])
  | Except.ok cpu_percent =>
    match memS with
    | Except.error e =>
        (AlertsBody.err e, 500, [⟨LogLevel.error, "Error getting alerts: " ++ e⟩])
    | Except.ok memory_percent =>
      match diskS with
      | Except.error e =>
          (AlertsBody.err e, 500, [⟨LogLevel.error, "Error getting alerts: " ++ e⟩])
      | Except.ok disk_percent =>
          let alerts := alertsList cpu_percent memory_percent disk_percent now
          (AlertsBody.ok alerts alerts.length now, 200, [])

/-- The `psutil.virtual_memory()` fields read by `system_metrics`. -/
structure MemInfo where
  total : Nat
  available : Nat
  percent : ℚ
  used : Nat
deriving DecidableEq, Repr

/-- The `psutil.disk_usage('/')` fields read by `system_metrics`. -/
structure DiskInfo where
  total : Nat
  used : Nat
  free : Nat
  percent : ℚ
deriving DecidableEq, Repr

/-- Everything the OS queries of `system_metrics` return on success. -/
structure MetricsSample where
  cpu_percent : ℚ
  cpu_count : Nat
  memory : MemInfo
  disk : DiskInfo
deriving DecidableEq, Repr

/-- Response body shapes of the `/metrics` handler. -/
inductive MetricsBody where
  | ok (cpu_percent : ℚ) (cpu_count : Nat) (memory : MemInfo)
      (disk : DiskInfo) (timestamp : String) : MetricsBody
  | err (msg : String) : MetricsBody
deriving DecidableEq, Repr

/-- The `/metrics` handler `system_metrics` of src/app.py.  `sample` is
the combined outcome of the psutil queries inside the try block. -/
def system_metrics (sample : Except String MetricsSample) (now : String) :
    MetricsBody × Nat × List LogRecord :=
  match sample with
  | Except.error e =>
      (MetricsBody.err e, 500,
       [⟨LogLevel.error, "Error getting system metrics: " ++ e⟩])
  | Except.ok s =>
      (MetricsBody.ok s.cpu_percent s.cpu_count s.memory s.disk now, 200, [])

/-- `maxBytes` of the `RotatingFileHandler` configured at src/app.py
line 17. -/
def file_handler_maxBytes : Nat := 10240000

/-- `backupCount` of the `RotatingFileHandler` configured at src/app.py
line 17. -/
def file_handler_backupCount : Nat := 10

/-- Modelled from the spec: the rollover rule of the logging subsystem
(`logging.handlers.RotatingFileHandler`, outside src/): with a positive
`maxBytes`, writing a record rolls over to a new file exactly when the
current size plus the record length reaches `maxBytes`. -/
def shouldRollover (currentSize recordLen : Nat) : Bool :=
  decide (0 < file_handler_maxBytes)
    && decide (file_handler_maxBytes ≤ currentSize + recordLen)

/-! ## Theorems -/

/-- Unfolding of `get_logs` when the file exists and the read succeeds. -/
theorem get_logs_ok (ls : List String) (lines : Int) :
    get_logs true (Except.ok ls) lines =
      (LogsBody.tail
        ((if lines < (ls.length : Int) then pySliceFrom ls (-lines) else ls).map pyStrip)
        ls.length
        (if lines < (ls.length : Int) then pySliceFrom ls (-lines) else ls).length,
       200, []) := rfl

/-- C5: when the monitoring log file does not exist, `/logs` returns the
body `{'logs': []}` with HTTP status 200, for every `lines` value and
independently of any read outcome; it is never treated as an error and
nothing is logged. -/
theorem logs_missing_file (readResult : Except String (List String)) (lines : Int) :
    get_logs false readResult lines = (LogsBody.emptyLogs, 200, []) := rfl

/-- C1 (amended): for every `lines` value `n ≥ 1` and existing, readable
log file, `/logs` returns exactly `min n total` entries, equal to the last
`min n total` lines of the file trimmed, with `total_lines` the file's
line count and `returned_lines` the number returned.  (At `n = 0` the
handler instead returns the whole file, see `logs_zero_counterexample`.) -/
theorem logs_tail_positive (ls : List String) (n : Int) (hn : 1 ≤ n) :
    get_logs true (Except.ok ls) n =
      (LogsBody.tail ((lastN ls (min n.toNat ls.length)).map pyStrip)
        ls.length (min n.toNat ls.length), 200, []) := by
  rw [get_logs_ok]
  by_cases h : n < (ls.length : Int)
  · rw [if_pos h]
    have hslice : pySliceFrom ls (-n) = ls.drop (ls.length - n.toNat) := by
      unfold pySliceFrom
      rw [if_neg (by omega), neg_neg]
    rw [hslice]
    have hmin : min n.toNat ls.length = n.toNat := by omega
    have hlen : (ls.drop (ls.length - n.toNat)).length = n.toNat := by
      rw [List.length_drop]; omega
    rw [hmin, hlen]
    rfl
  · rw [if_neg h]
    have hmin : min n.toNat ls.length = ls.length := by omega
    rw [hmin]
    unfold lastN
    simp

/-- Witness for C1 at a concrete input: three lines, `lines = 2`. -/
theorem logs_tail_positive_witness :
    get_logs true (Except.ok ["a", "b", "c"]) 2 =
      (LogsBody.tail ["b", "c"] 3 2, 200, []) :=
  (logs_tail_positive ["a", "b", "c"] 2 (by decide)).trans (by decide)

/-- C1 counterexample: at `n = 0` on a one-line file the handler returns
1 entry (`logs[-0:]` is the whole list), not `min 0 1 = 0` entries as the
claim states. -/
theorem logs_zero_counterexample :
    get_logs true (Except.ok ["a\n"]) 0 = (LogsBody.tail ["a"] 1 1, 200, []) ∧
    (1 : Nat) ≠ min (Int.toNat 0) 1 := by
  exact ⟨by decide, by decide⟩

/-- C9: for a negative `lines` value `n < 0` the handler does not fail and
does not clamp: `logs[-n:]` with `-n > 0` drops the first `|n|` lines, so
all but the first `|n|` lines come back (trimmed) and
`returned_lines = total - |n|` (truncated at 0). -/
theorem logs_negative_lines (ls : List String) (n : Int) (hn : n < 0) :
    get_logs true (Except.ok ls) n =
      (LogsBody.tail ((ls.drop (-n).toNat).map pyStrip)
        ls.length (ls.length - (-n).toNat), 200, []) := by
  rw [get_logs_ok]
  have h : n < (ls.length : Int) := by omega
  rw [if_pos h]
  have hslice : pySliceFrom ls (-n) = ls.drop (-n).toNat := by
    unfold pySliceFrom
    rw [if_pos (by omega)]
  rw [hslice, List.length_drop]

/-- Witness for C9 at a concrete input: two lines, `lines = -1` drops the
first line. -/
theorem logs_negative_lines_witness :
    get_logs true (Except.ok ["a", "b"]) (-1) =
      (LogsBody.tail ["b"] 2 1, 200, []) :=
  (logs_negative_lines ["a", "b"] (-1) (by decide)).trans (by decide)

/-- The per-endpoint status string equals `"healthy"` exactly when the
outbound check returned HTTP 200. -/
theorem checkService_status_healthy (o : CheckOutcome) :
    ((checkService o).status == "healthy") = isOk200 o := by
  cases o with
  | ok code t =>
      by_cases h : code = 200
      · subst h; rfl
      · have hb : (code == 200) = false := by simp [h]
        simp [checkService, isOk200, hb]
  | exn e => rfl

/-- The aggregate `all_healthy` computed by `check_services` equals: every
configured endpoint's check returned HTTP 200. -/
theorem check_services_allHealthy (services : List (String × String))
    (outcome : String → String → CheckOutcome) :
    ((services.map (fun p => (p.1, checkService (outcome p.1 p.2)))).all
        (fun r => r.2.status == "healthy"))
      = services.all (fun p => isOk200 (outcome p.1 p.2)) := by
  induction services with
  | nil => rfl
  | cons hd tl ih =>
      simp only [List.map_cons, List.all_cons, ih, checkService_status_healthy]

/-- C2: `/services` reports `overall_status = "healthy"` with HTTP 200
exactly when every configured endpoint's check returned HTTP 200;
otherwise (any non-200 status or request error) it reports `"degraded"`
with HTTP 503. -/
theorem services_overall (services : List (String × String))
    (outcome : String → String → CheckOutcome) (now : String) :
    ((check_services services outcome now).1.overall_status = "healthy"
        ↔ ∀ p ∈ services, isOk200 (outcome p.1 p.2) = true) ∧
    ((check_services services outcome now).2 = 200
        ↔ ∀ p ∈ services, isOk200 (outcome p.1 p.2) = true) ∧
    ((check_services services outcome now).1.overall_status = "degraded"
        ↔ ¬ ∀ p ∈ services, isOk200 (outcome p.1 p.2) = true) ∧
    ((check_services services outcome now).2 = 503
        ↔ ¬ ∀ p ∈ services, isOk200 (outcome p.1 p.2) = true) := by
  simp only [check_services, check_services_allHealthy]
  simp only [← List.all_eq_true]
  cases hb : services.all (fun p => isOk200 (outcome p.1 p.2)) <;>
    simp [hb]

/-- C3: classification of a single endpoint check: HTTP 200 gives status
`"healthy"`; any other status code gives `"unhealthy"` with the code
recorded; a request error gives `"unhealthy"` with the (non-empty) error
message, no status code and a null response time, and a service whose
check errors makes the overall response 503 with that per-service
entry. -/
theorem service_classification (t : ℚ) (c : Nat) (msg url now : String)
    (hc : c ≠ 200) (hm : msg ≠ "") :
    checkService (CheckOutcome.ok 200 t) =
      { status := "healthy", status_code := some 200,
        response_time := some t, error := none } ∧
    (checkService (CheckOutcome.ok c t)).status = "unhealthy" ∧
    (checkService (CheckOutcome.ok c t)).status_code = some c ∧
    checkService (CheckOutcome.exn msg) =
      { status := "unhealthy", status_code := none,
        response_time := none, error := some msg } ∧
    (checkService (CheckOutcome.exn msg)).error ≠ some "" ∧
    (check_services [("api", url)] (fun _ _ => CheckOutcome.exn msg) now).2 = 503 ∧
    (check_services [("api", url)] (fun _ _ => CheckOutcome.exn msg) now).1.services =
      [("api", { status := "unhealthy", status_code := none,
                 response_time := none, error := some msg })] := by
  have hb : (c == 200) = false := by simp [hc]
  refine ⟨rfl, ?_, ?_, rfl, ?_, rfl, rfl⟩
  · simp [checkService, hb]
  · simp [checkService, hb]
  · simp [checkService, hm]

/-- Witness for C3 at a concrete input: status code 404, a
connection-refused error message. -/
theorem service_classification_witness :
    (check_services [("api", placeholder_url)]
        (fun _ _ => CheckOutcome.exn "connection refused") "T").2 = 503 :=
  (service_classification 1 404 "connection refused" placeholder_url "T"
    (by decide) (by decide)).2.2.2.2.2.1

/-- C4: the cpu-type alerts of a successful `/alerts` response are exactly
one warning alert embedding the measured value when sampled CPU > 80 and
none otherwise, with the matching rule for memory (> 85, warning) and disk
(> 90, critical); whenever the OS queries succeed the response is the
alert list with `count` and timestamp at HTTP 200, however many thresholds
are breached. -/
theorem alerts_thresholds (cpu memp diskp : ℚ) (now : String) :
    ((alertsList cpu memp diskp now).filter (fun a => a.type == "cpu") =
        if cpu > 80 then
          [{ level := "warning", type := "cpu",
             message := "High CPU usage: " ++ toString cpu ++ "%",
             timestamp := now }]
        else []) ∧
    ((alertsList cpu memp diskp now).filter (fun a => a.type == "memory") =
        if memp > 85 then
          [{ level := "warning", type := "memory",
             message := "High memory usage: " ++ toString memp ++ "%",
             timestamp := now }]
        else []) ∧
    ((alertsList cpu memp diskp now).filter (fun a => a.type == "disk") =
        if diskp > 90 then
          [{ level := "critical", type := "disk",
             message := "Low disk space: " ++ toString diskp ++ "% used",
             timestamp := now }]
        else []) ∧
    get_alerts (Except.ok cpu) (Except.ok memp) (Except.ok diskp) now =
      (AlertsBody.ok (alertsList cpu memp diskp now)
        (alertsList cpu memp diskp now).length now, 200, []) := by
  refine ⟨?_, ?_, ?_, rfl⟩ <;>
  · unfold alertsList
    by_cases h1 : cpu > 80 <;> by_cases h2 : memp > 85 <;> by_cases h3 : diskp > 90 <;>
      simp [h1, h2, h3, List.filter_append]

/-- C10: in every successful `/alerts` response the list of alert types is
the subsequence of `[cpu, memory, disk]` selected by the breached
thresholds — hence at most one alert per type, in that fixed order — and
the `count` field equals the length of the alert list (so it is at
most 3). -/
theorem alerts_order (cpu memp diskp : ℚ) (now : String) :
    ((alertsList cpu memp diskp now).map Alert.type =
        (if cpu > 80 then ["cpu"] else [])
          ++ (if memp > 85 then ["memory"] else [])
          ++ (if diskp > 90 then ["disk"] else [])) ∧
    List.Sublist ((alertsList cpu memp diskp now).map Alert.type)
      ["cpu", "memory", "disk"] ∧
    (get_alerts (Except.ok cpu) (Except.ok memp) (Except.ok diskp) now).1 =
      AlertsBody.ok (alertsList cpu memp diskp now)
        (alertsList cpu memp diskp now).length now ∧
    (alertsList cpu memp diskp now).length ≤ 3 := by
  refine ⟨?_, ?_, rfl, ?_⟩ <;>
  · unfold alertsList
    by_cases h1 : cpu > 80 <;> by_cases h2 : memp > 85 <;> by_cases h3 : diskp > 90 <;>
      simp [h1, h2, h3]

/-- C7: `/metrics` on OS-query success returns HTTP 200 with cpu percent
and count, the four memory fields, the four disk fields and the timestamp;
on any OS-query failure it returns `{'error': msg}` with HTTP 500 and logs
the message at error level, and an OS-query failure at any of the three
sampling points of `/alerts` behaves the same way. -/
theorem metrics_error_handling (s : MetricsSample) (e : String) (now : String) :
    system_metrics (Except.ok s) now =
      (MetricsBody.ok s.cpu_percent s.cpu_count s.memory s.disk now, 200, []) ∧
    system_metrics (Except.error e) now =
      (MetricsBody.err e, 500,
       [⟨LogLevel.error, "Error getting system metrics: " ++ e⟩]) ∧
    (∀ memS diskS, get_alerts (Except.error e) memS diskS now =
      (AlertsBody.err e, 500,
       [⟨LogLevel.error, "Error getting alerts: " ++ e⟩])) ∧
    (∀ cpu diskS, get_alerts (Except.ok cpu) (Except.error e) diskS now =
      (AlertsBody.err e, 500,
       [⟨LogLevel.error, "Error getting alerts: " ++ e⟩])) ∧
    (∀ cpu memp, get_alerts (Except.ok cpu) (Except.ok memp) (Except.error e) now =
      (AlertsBody.err e, 500,
       [⟨LogLevel.error, "Error getting alerts: " ++ e⟩])) :=
  ⟨rfl, rfl, fun _ _ => rfl, fun _ _ => rfl, fun _ _ => rfl⟩

/-- C8: the monitored-service configuration maps exactly the names `api`,
`database` and `redis`, in that order, to the values of `API_URL`,
`DB_URL` and `REDIS_URL`, each falling back to the same shared placeholder
URL when unset; with an empty environment all three entries are the
placeholder. -/
theorem services_config (env : String → Option String) :
    SERVICES env =
      [("api", (env "API_URL").getD placeholder_url),
       ("database", (env "DB_URL").getD placeholder_url),
       ("redis", (env "REDIS_URL").getD placeholder_url)] ∧
    (SERVICES env).map Prod.fst = ["api", "database", "redis"] ∧
    SERVICES (fun _ => none) =
      [("api", placeholder_url), ("database", placeholder_url),
       ("redis", placeholder_url)] :=
  ⟨rfl, rfl, rfl⟩

/-- C6 counterexample: the rotation size configured at src/app.py line 17
is 10240000 bytes, not 10485760 bytes as the claim states. -/
theorem rotation_size_counterexample :
    file_handler_maxBytes = 10240000 ∧ file_handler_maxBytes ≠ 10485760 := by
  decide

/-- C6 (amended): the rotating handler is configured to roll over to a new
file when the current file size plus the incoming record reaches
10240000 bytes, and retains up to 10 rotated backup files. -/
theorem rotation_config (currentSize recordLen : Nat) :
    file_handler_maxBytes = 10240000 ∧ file_handler_backupCount = 10 ∧
    (shouldRollover currentSize recordLen = true
        ↔ 10240000 ≤ currentSize + recordLen) := by
  refine ⟨rfl, rfl, ?_⟩
  unfold shouldRollover file_handler_maxBytes
  simp

end SafeScan
